import Mathlib

/-!
Verification development for the claude-agent-server repository
(src/packages/server/index.ts), a single-file WebSocket/HTTP relay
between one client connection and a streaming agent process.

The embedding below models:
  * JSON values (the configuration store holds the result of
    `JSON.parse` on a POST /config body);
  * the construction of the `options` object in `processMessages`
    (index.ts lines 46-67), including JavaScript object-spread and
    truthiness semantics;
  * the `generateMessages` async generator (lines 30-41) as a step
    relation on a queue/yielded state;
  * the whole server as a step function on its module-level state
    (`activeConnection`, `messageQueue`, `activeStream`, `queryConfig`)
    driven by events: WebSocket connection/close, agent stream output,
    stderr callback, stream iteration error, and the /config HTTP
    handlers.
-/

namespace AgentServer

/-- JSON values, the results of `JSON.parse`.  Numbers are modelled as
integers (no claim depends on fractional values). -/
inductive Json where
  | null : Json
  | bool : Bool → Json
  | num : Int → Json
  | str : String → Json
  | arr : List Json → Json
  | obj : List (String × Json) → Json

/-- Own enumerable properties contributed by `...x` object spread in
JavaScript: an object contributes its fields, an array and a string
contribute index-keyed entries, and `null` / booleans / numbers
contribute nothing. -/
def spreadFields : Json → List (String × Json)
  | .obj fs => fs
  | .arr xs => xs.enum.map (fun p => (toString p.1, p.2))
  | .str s => s.toList.enum.map (fun p => (toString p.1, Json.str (String.singleton p.2)))
  | _ => []

/-- Property lookup in a field list where a later binding shadows an
earlier one, matching the override order of JavaScript object
literals and spreads. -/
def getField {α : Type} : List (String × α) → String → Option α
  | [], _ => none
  | kv :: rest, key =>
      match getField rest key with
      | some w => some w
      | none => if kv.1 = key then some kv.2 else none

/-- JavaScript truthiness of a JSON value (`queryConfig.anthropicApiKey &&`
in index.ts line 61). -/
def jsTruthy : Json → Bool
  | .null => false
  | .bool b => b
  | .num n => n != 0
  | .str s => s != ""
  | .arr _ => true
  | .obj _ => true

/-- The value of `queryConfig.anthropicApiKey`: property access on the
stored configuration value (total here; the throwing case of access on
`null` is handled in `buildOptions`). -/
def anthropicApiKeyOf (cfg : Json) : Option Json :=
  getField (spreadFields cfg) "anthropicApiKey"

/-- Whether `queryConfig.anthropicApiKey` is truthy, i.e. whether the
conditional `env` spread at index.ts lines 61-66 fires. -/
def credTruthy (cfg : Json) : Bool :=
  match anthropicApiKeyOf cfg with
  | some v => jsTruthy v
  | none => false

/-- A value stored in the `options` object: a JSON value, or the
`stderr` callback function (opaque; its behaviour is modelled by the
`agentStderr` event of the server step function below). -/
inductive OptVal where
  | json : Json → OptVal
  | callback : OptVal

/-- The literal fields of the `options` object before the two spreads
(index.ts lines 46-59).  `workDir` is `workspaceDirectory`, i.e.
`join(homedir(), WORKSPACE_DIR_NAME)`, whose concrete value depends on
the environment. -/
def defaultOpts (workDir : String) : List (String × OptVal) :=
  [("permissionMode", .json (.str "bypassPermissions")),
   ("allowDangerouslySkipPermissions", .json (.bool true)),
   ("settingSources", .json (.arr [.str "project"])),
   ("cwd", .json (.str workDir)),
   ("stderr", .callback)]

/-- The fields contributed by
`...(queryConfig.anthropicApiKey && { env: { PATH: process.env.PATH,
ANTHROPIC_API_KEY: queryConfig.anthropicApiKey } })` (index.ts lines
61-66): spreading a falsy value contributes nothing.  `path` is the
server process's `PATH` variable. -/
def credEnvPart (cfg : Json) (path : String) : List (String × OptVal) :=
  match anthropicApiKeyOf cfg with
  | some v =>
      if jsTruthy v then
        [("env", .json (.obj [("PATH", .str path), ("ANTHROPIC_API_KEY", v)]))]
      else []
  | none => []

/-- The `message` of the TypeError V8 raises for the property access
`queryConfig.anthropicApiKey` (index.ts line 61) when `queryConfig` is
`null` (the `error.message` text, without the `TypeError: ` name
prefix). -/
def nullAccessMessage : String :=
  "Cannot read properties of null (reading 'anthropicApiKey')"

/-- Whether constructing the `options` object (index.ts lines 46-67)
throws: precisely when the stored configuration is `null`, because of
the property access at line 61.  `...queryConfig` itself never throws
(spreading `null` or a primitive is legal). -/
def optionsConstructionFails : Json → Bool
  | .null => true
  | _ => false

/-- The fields contributed by `...queryConfig` (index.ts line 60),
tagged as JSON option values. -/
def configOptFields (cfg : Json) : List (String × OptVal) :=
  (spreadFields cfg).map (fun kv => (kv.1, OptVal.json kv.2))

/-- The `options` object built in `processMessages` (index.ts lines
46-67): literal defaults, then `...queryConfig`, then the conditional
credential `env` spread; later fields shadow earlier ones under
`getField`.  Property access `queryConfig.anthropicApiKey` throws a
TypeError when the stored configuration is `null`, which the
surrounding try/catch turns into the error path. -/
def buildOptions (cfg : Json) (workDir path : String) :
    Except String (List (String × OptVal)) :=
  match cfg with
  | .null => .error nullAccessMessage
  | _ => .ok (defaultOpts workDir ++ configOptFields cfg ++ credEnvPart cfg path)

/-! ### The `generateMessages` generator (index.ts lines 30-41)

The generator runs concurrently (cooperatively) with producers that
append to `messageQueue`.  We model the joint evolution as a trace of
two kinds of events: an enqueue (a `messageQueue.push` by the message
handler; modelled from the spec, section 4.2: `enqueue(message)`
appends — the Message Handler source file is not in scope) and one
iteration of the generator body, which `shift`s and yields the front
message when the queue is non-empty and merely sleeps when it is
empty. -/

/-- Joint state of the message queue and the sequence of messages the
generator has yielded so far. -/
structure GenState (α : Type) where
  queue : List α
  yielded : List α

/-- One event in the life of `generateMessages`: either some producer
enqueues a message, or the generator takes one step of its loop. -/
inductive GenEvent (α : Type) where
  | enqueue : α → GenEvent α
  | step : GenEvent α

/-- Effect of one event: `enqueue` appends to the queue
(`messageQueue.push`); `step` executes one round of the generator loop,
`shift`ing and yielding the head if the queue is non-empty
(index.ts lines 33-36) and doing nothing (the 10 ms sleep, line 39)
otherwise. -/
def genStep {α : Type} (st : GenState α) : GenEvent α → GenState α
  | .enqueue m => { st with queue := st.queue ++ [m] }
  | .step =>
      match st.queue with
      | [] => st
      | m :: rest => { queue := rest, yielded := st.yielded ++ [m] }

/-- Run a trace of generator/enqueue events from a state. -/
def genRun {α : Type} (st : GenState α) (tr : List (GenEvent α)) : GenState α :=
  tr.foldl genStep st

/-- The messages enqueued along a trace, in order. -/
def enqueuedOf {α : Type} : List (GenEvent α) → List α
  | [] => []
  | .enqueue m :: tr => m :: enqueuedOf tr
  | .step :: tr => enqueuedOf tr

/-! ### The server state machine (index.ts lines 17-165)

Module-level mutable state and the handlers that mutate it, as one step
function over events.  Connection handles are identified by natural
numbers; agent-produced SDK messages are opaque and identified by
natural numbers as well. -/

/-- The module-level state of index.ts: `activeConnection` (line 18),
`messageQueue` (line 21), `activeStream` (line 24, abstracted to
whether it is non-null) plus whether the `for await` iteration loop of
`processMessages` is still running, `queryConfig` (line 27), and two
ghost counters: `streamStarts` counts executions of
`activeStream = query(...)` (line 71, the creations of the agent
stream), `processCalls` counts invocations of `processMessages` (line
147) — the two differ because an invocation can throw during options
construction (line 61) before line 71 is reached. -/
structure ServerState where
  activeConnection : Option Nat
  messageQueue : List Nat
  activeStream : Bool
  loopRunning : Bool
  queryConfig : Json
  streamStarts : Nat
  processCalls : Nat

/-- Initial module state: no connection, empty queue, no stream,
`queryConfig = {}` (index.ts line 27). -/
def sysInit : ServerState :=
  { activeConnection := none
    messageQueue := []
    activeStream := false
    loopRunning := false
    queryConfig := .obj []
    streamStarts := 0
    processCalls := 0 }

/-- Outbound envelopes (`WSOutputMessage` literals in index.ts). -/
inductive Envelope where
  | connected : Envelope
  | info : String → Envelope
  | sdkMessage : Nat → Envelope
  | error : String → Envelope

/-- Observable actions of one step: a WebSocket send, a WebSocket
close, or an HTTP response. -/
inductive Action where
  | send : Nat → Envelope → Action
  | close : Nat → Action
  | httpRespond : Nat → Json → Action

/-- Events driving the server: a WebSocket connection attempt, a socket
close, an inbound user message enqueued by the message handler
(modelled from the spec, section 4.2/4.5: the handler appends a
well-formed user message to the Queue; its source file is not in
scope), one step of the message generator consuming the queue, an item
of the agent's output stream, a chunk of agent stderr, an error thrown
while iterating the agent stream (`some m` for an `Error` with message
`m`, `none` for a non-`Error` throw), and the two /config HTTP
requests (a POST carries the result of `JSON.parse` on its body:
`some j` when the body is valid JSON, `none` when parsing throws). -/
inductive SysEvent where
  | connect : Nat → SysEvent
  | disconnect : Nat → SysEvent
  | userMessage : Nat → SysEvent
  | genStepEvent : SysEvent
  | agentOutput : Nat → SysEvent
  | agentStderr : String → SysEvent
  | streamError : Option String → SysEvent
  | postConfig : Option Json → SysEvent
  | getConfig : SysEvent

/-- One step of the server.

* `connect` (index.ts lines 132-151): if a connection is active, send
  one `error` envelope to the new socket and close it, touching
  nothing else.  Otherwise adopt the socket and, when `activeStream`
  is still null (lines 146-148), invoke `processMessages`, which runs
  synchronously up to its first await: if the stored configuration is
  `null`, options construction throws at line 61 before
  `activeStream = query(...)` (line 71) is reached, the catch clause
  (lines 85-94) sends the TypeError's message as an `error` envelope
  to the just-adopted connection, and `activeStream` stays null (so a
  later connection will invoke `processMessages` again); on a
  non-null configuration line 71 runs, the stream is created and the
  iteration loop starts.  Either way the handler then sends a
  `connected` envelope (lines 150-151).
* `disconnect` (lines 160-164): clear `activeConnection` when the
  closing socket is the active one.
* `userMessage`: append to `messageQueue`.
* `genStepEvent`: one round of `generateMessages` (lines 33-36),
  `shift`ing the queue head into the agent stream.
* `agentOutput` (lines 76-84): forward as an `sdk_message` envelope to
  the active connection, if any; otherwise drop.
* `agentStderr` (lines 51-59): forward as an `info` envelope to the
  active connection, if any; otherwise drop.
* `streamError` (lines 85-94): the catch clause; only reachable while
  the iteration loop runs; ends the loop and sends an `error` envelope
  with `error.message` or `"Unknown error"` to the active connection,
  if any.  `activeStream` is never reset to null.
* `postConfig` (lines 102-116): replace `queryConfig` with the parsed
  body and answer 200, or answer 400 `{error: "Invalid JSON"}` when
  parsing threw.
* `getConfig` (lines 119-123): answer 200 with the stored value. -/
def sysStep (st : ServerState) : SysEvent → ServerState × List Action
  | .connect c =>
      match st.activeConnection with
      | some _ =>
          (st, [.send c (.error "Server already has an active connection"), .close c])
      | none =>
          if st.activeStream then
            ({ st with activeConnection := some c }, [.send c .connected])
          else if optionsConstructionFails st.queryConfig then
            ({ st with
                activeConnection := some c
                processCalls := st.processCalls + 1 },
             [.send c (.error nullAccessMessage), .send c .connected])
          else
            ({ st with
                activeConnection := some c
                activeStream := true
                loopRunning := true
                streamStarts := st.streamStarts + 1
                processCalls := st.processCalls + 1 },
             [.send c .connected])
  | .disconnect c =>
      (if st.activeConnection = some c then { st with activeConnection := none } else st, [])
  | .userMessage m =>
      ({ st with messageQueue := st.messageQueue ++ [m] }, [])
  | .genStepEvent =>
      (match st.messageQueue with
       | [] => st
       | _ :: rest => { st with messageQueue := rest }, [])
  | .agentOutput m =>
      (st, match st.activeConnection with
           | some c => [.send c (.sdkMessage m)]
           | none => [])
  | .agentStderr d =>
      (st, match st.activeConnection with
           | some c => [.send c (.info d)]
           | none => [])
  | .streamError e =>
      if st.loopRunning then
        ({ st with loopRunning := false },
         match st.activeConnection with
         | some c => [.send c (.error (e.getD "Unknown error"))]
         | none => [])
      else (st, [])
  | .postConfig parsed =>
      match parsed with
      | some j =>
          ({ st with queryConfig := j },
           [.httpRespond 200 (.obj [("success", .bool true), ("config", j)])])
      | none =>
          (st, [.httpRespond 400 (.obj [("error", .str "Invalid JSON")])])
  | .getConfig =>
      (st, [.httpRespond 200 (.obj [("config", st.queryConfig)])])

/-- Run a trace of events, accumulating the actions in order. -/
def sysRun (st : ServerState) : List SysEvent → ServerState × List Action
  | [] => (st, [])
  | e :: tr =>
      let s1 := sysStep st e
      let rest := sysRun s1.1 tr
      (rest.1, s1.2 ++ rest.2)

/-- Whether a trace contains a connection attempt. -/
def isConnect : SysEvent → Bool
  | .connect _ => true
  | _ => false

/-- Whether a trace contains at least one connection attempt. -/
def hasConnect (tr : List SysEvent) : Bool :=
  tr.any isConnect

/-- A stored configuration that supplies no credential but does supply
its own `env` field. -/
def cfgEnvOnly : Json := .obj [("env", .obj [("FOO", .str "bar")])]

/-- A trace that stores `null` as the configuration (POST /config with
body `null`) and then accepts a first connection. -/
def nullCfgTrace : List SysEvent :=
  [.postConfig (some .null), .connect 0]

/-! ### Theorems -/

/-- Invariant of the generator: the messages yielded so far followed by
the messages still queued are exactly the initial contents plus the
messages enqueued along the trace, in order. -/
theorem genRun_yielded_append_queue {α : Type} (tr : List (GenEvent α)) :
    ∀ st : GenState α,
      (genRun st tr).yielded ++ (genRun st tr).queue
        = st.yielded ++ (st.queue ++ enqueuedOf tr) := by
  induction tr with
  | nil => intro st; simp [genRun, enqueuedOf]
  | cons e tr ih =>
      intro st
      have hrun : genRun st (e :: tr) = genRun (genStep st e) tr := rfl
      rw [hrun]
      cases e with
      | enqueue m =>
          rw [ih]
          simp [genStep, enqueuedOf]
      | step =>
          cases hq : st.queue with
          | nil =>
              rw [ih]
              simp [genStep, hq, enqueuedOf]
          | cons m rest =>
              rw [ih]
              simp [genStep, hq, enqueuedOf]

/-- Claim C1: starting from an empty queue, for every interleaving of
enqueue operations and generator steps, the sequence the generator has
yielded followed by what is still queued equals exactly the sequence of
enqueued messages, in enqueue order — so the generator yields exactly
the enqueued messages, in order, with no duplication and no loss. -/
theorem generateMessages_yields_enqueued_in_order {α : Type}
    (tr : List (GenEvent α)) :
    (genRun ⟨[], []⟩ tr).yielded ++ (genRun ⟨[], []⟩ tr).queue
      = enqueuedOf tr := by
  have h := genRun_yielded_append_queue tr (⟨[], []⟩ : GenState α)
  simpa using h

/-- Claim C2: a connection attempt while a connection is active leaves
the whole server state unchanged (existing connection, agent stream,
queue and configuration untouched) and produces exactly one `error`
envelope to the new socket followed by closing that socket. -/
theorem second_connection_rejected (st : ServerState) (c c0 : Nat)
    (h : st.activeConnection = some c0) :
    sysStep st (.connect c)
      = (st, [.send c (.error "Server already has an active connection"),
              .close c]) := by
  simp [sysStep, h]

/-- Witness for C2 at a concrete occupied state. -/
theorem second_connection_rejected_witness :
    sysStep { sysInit with activeConnection := some 0 } (.connect 1)
      = ({ sysInit with activeConnection := some 0 },
         [.send 1 (.error "Server already has an active connection"),
          .close 1]) :=
  second_connection_rejected { sysInit with activeConnection := some 0 } 1 0 rfl

/-- Invariant: the number of executions of `activeStream = query(...)`
(index.ts line 71) is 1 precisely when `activeStream` is non-null.  A
throwing `processMessages` invocation (null stored configuration)
leaves both untouched. -/
def streamInv (st : ServerState) : Prop :=
  st.streamStarts = (if st.activeStream then 1 else 0)

theorem streamInv_init : streamInv sysInit := by
  simp [streamInv, sysInit]

theorem streamInv_step (st : ServerState) (e : SysEvent) (h : streamInv st) :
    streamInv (sysStep st e).1 := by
  unfold streamInv at h ⊢
  cases e with
  | connect c =>
      cases hc : st.activeConnection with
      | some a => simpa [sysStep, hc] using h
      | none =>
          cases hs : st.activeStream with
          | true => simp [sysStep, hc, hs, hs ▸ h]
          | false =>
              by_cases hf : optionsConstructionFails st.queryConfig = true <;>
                simp [sysStep, hc, hs, hf, hs ▸ h]
  | disconnect c =>
      by_cases hc : st.activeConnection = some c <;> simpa [sysStep, hc] using h
  | userMessage m => exact h
  | genStepEvent =>
      cases hq : st.messageQueue with
      | nil => simpa [sysStep, hq] using h
      | cons a rest => simpa [sysStep, hq] using h
  | agentOutput m => exact h
  | agentStderr d => exact h
  | streamError e =>
      by_cases hl : st.loopRunning = true <;> simpa [sysStep, hl] using h
  | postConfig parsed =>
      cases parsed with
      | some j => simpa [sysStep] using h
      | none => exact h
  | getConfig => exact h

theorem streamInv_run (tr : List SysEvent) :
    ∀ st : ServerState, streamInv st → streamInv (sysRun st tr).1 := by
  induction tr with
  | nil => intro st h; exact h
  | cons e tr ih =>
      intro st h
      exact ih (sysStep st e).1 (streamInv_step st e h)

/-- Once the stream exists it persists, and no step executes line 71
again: `streamStarts` is frozen. -/
theorem streamPersists_step (st : ServerState) (e : SysEvent)
    (h : st.activeStream = true) :
    (sysStep st e).1.activeStream = true ∧
    (sysStep st e).1.streamStarts = st.streamStarts := by
  cases e with
  | connect c =>
      cases hc : st.activeConnection with
      | some a => simp [sysStep, hc, h]
      | none => simp [sysStep, hc, h]
  | disconnect c =>
      by_cases hc : st.activeConnection = some c <;> simp [sysStep, hc, h]
  | userMessage m => exact ⟨h, rfl⟩
  | genStepEvent =>
      cases hq : st.messageQueue with
      | nil => simp [sysStep, hq, h]
      | cons a rest => simp [sysStep, hq, h]
  | agentOutput m => exact ⟨h, rfl⟩
  | agentStderr d => exact ⟨h, rfl⟩
  | streamError e =>
      by_cases hl : st.loopRunning = true <;> simp [sysStep, hl, h]
  | postConfig parsed =>
      cases parsed with
      | some j => simp [sysStep, h]
      | none => exact ⟨h, rfl⟩
  | getConfig => exact ⟨h, rfl⟩

theorem streamPersists_run (tr : List SysEvent) :
    ∀ st : ServerState, st.activeStream = true →
      (sysRun st tr).1.activeStream = true ∧
      (sysRun st tr).1.streamStarts = st.streamStarts := by
  induction tr with
  | nil => intro st h; exact ⟨h, rfl⟩
  | cons e tr ih =>
      intro st h
      have hstep := streamPersists_step st e h
      have hrun := ih (sysStep st e).1 hstep.1
      exact ⟨hrun.1, hrun.2.trans hstep.2⟩

/-- Counterexample to C3 as stated: after storing `null` as the
configuration (POST /config with body `null`), the first connection
does not create the agent stream — `processMessages` throws at options
construction before line 71 — and on the reconnect trace that then
stores `{}` and connects again, `processMessages` has been invoked
twice, with the stream created by the second connection. -/
theorem agent_stream_first_connection_counterexample :
    hasConnect nullCfgTrace = true ∧
    (sysRun sysInit nullCfgTrace).1.activeStream = false ∧
    (sysRun sysInit nullCfgTrace).1.streamStarts = 0 ∧
    (sysRun sysInit nullCfgTrace).2
      = [.httpRespond 200 (.obj [("success", .bool true), ("config", .null)]),
         .send 0 (.error nullAccessMessage), .send 0 .connected] ∧
    (sysRun sysInit (nullCfgTrace ++
        [.disconnect 0, .postConfig (some (.obj [])), .connect 1])).1.processCalls
      = 2 ∧
    (sysRun sysInit (nullCfgTrace ++
        [.disconnect 0, .postConfig (some (.obj [])), .connect 1])).1.streamStarts
      = 1 := by
  exact ⟨rfl, rfl, rfl, rfl, rfl, rfl⟩

/-- Claim C3 (amended): the underlying agent stream is created at most
once per process lifetime; once it exists, later connections reuse it
(no step re-executes line 71).  An accepted connection while no stream
exists invokes `processMessages`: the invocation creates the stream
when options construction does not throw, while with a `null` stored
configuration it throws before line 71, the new connection receives
the TypeError's message as an `error` envelope before `connected`, and
no stream is created — a later connection retries the invocation. -/
theorem agent_stream_created_at_most_once_amended :
    (∀ tr : List SysEvent, (sysRun sysInit tr).1.streamStarts ≤ 1) ∧
    (∀ (st : ServerState) (tr : List SysEvent), st.activeStream = true →
       (sysRun st tr).1.activeStream = true ∧
       (sysRun st tr).1.streamStarts = st.streamStarts) ∧
    (∀ (st : ServerState) (c : Nat),
       st.activeConnection = none → st.activeStream = false →
       (optionsConstructionFails st.queryConfig = false →
          sysStep st (.connect c)
            = ({ st with activeConnection := some c, activeStream := true,
                         loopRunning := true,
                         streamStarts := st.streamStarts + 1,
                         processCalls := st.processCalls + 1 },
               [.send c .connected])) ∧
       (optionsConstructionFails st.queryConfig = true →
          sysStep st (.connect c)
            = ({ st with activeConnection := some c,
                         processCalls := st.processCalls + 1 },
               [.send c (.error nullAccessMessage), .send c .connected]))) := by
  refine ⟨?_, ?_, ?_⟩
  · intro tr
    have hinv := streamInv_run tr sysInit streamInv_init
    unfold streamInv at hinv
    rw [hinv]
    cases (sysRun sysInit tr).1.activeStream <;> simp
  · intro st tr h
    exact streamPersists_run tr st h
  · intro st c hc hs
    constructor
    · intro hf
      simp [sysStep, hc, hs, hf]
    · intro hf
      simp [sysStep, hc, hs, hf]

/-- Witness for C3 (amended): the very first connection on the default
empty configuration creates the stream. -/
theorem agent_stream_created_at_most_once_amended_witness :
    sysStep sysInit (.connect 0)
      = ({ sysInit with activeConnection := some 0, activeStream := true,
                        loopRunning := true, streamStarts := 1,
                        processCalls := 1 },
         [.send 0 .connected]) :=
  (agent_stream_created_at_most_once_amended.2.2 sysInit 0 rfl rfl).1 rfl

/-- Claim C4: an agent event (main-stream item or stderr chunk)
produced while no connection is active changes nothing and emits
nothing, so the run over any continuation trace — including later
connections — is identical with or without that event: the event is
permanently dropped, never buffered or replayed. -/
theorem dropped_event_never_replayed (st : ServerState) (tr : List SysEvent)
    (m : Nat) (d : String) (h : st.activeConnection = none) :
    sysRun st (.agentOutput m :: tr) = sysRun st tr ∧
    sysRun st (.agentStderr d :: tr) = sysRun st tr := by
  have h1 : sysStep st (.agentOutput m) = (st, []) := by simp [sysStep, h]
  have h2 : sysStep st (.agentStderr d) = (st, []) := by simp [sysStep, h]
  constructor <;> simp [sysRun, h1, h2]

/-- Witness for C4: an agent message produced before any connection is
invisible to a connection made afterwards. -/
theorem dropped_event_never_replayed_witness :
    sysRun sysInit (SysEvent.agentOutput 7 :: [SysEvent.connect 0])
      = sysRun sysInit [SysEvent.connect 0] :=
  (dropped_event_never_replayed sysInit [SysEvent.connect 0] 7 "x" rfl).1

/-- Once the stream exists and its iteration loop has ended, no later
event restarts the loop: `activeStream` is never reset to null, and
`processMessages` only runs when it is null. -/
theorem loopDead_step (st : ServerState) (e : SysEvent)
    (hs : st.activeStream = true) (hl : st.loopRunning = false) :
    (sysStep st e).1.activeStream = true ∧ (sysStep st e).1.loopRunning = false := by
  cases e with
  | connect c =>
      cases hc : st.activeConnection with
      | some a => simp [sysStep, hc, hs, hl]
      | none => simp [sysStep, hc, hs, hl]
  | disconnect c =>
      by_cases hc : st.activeConnection = some c <;> simp [sysStep, hc, hs, hl]
  | userMessage m => exact ⟨hs, hl⟩
  | genStepEvent =>
      cases hq : st.messageQueue with
      | nil => simpa [sysStep, hq] using ⟨hs, hl⟩
      | cons a rest => simpa [sysStep, hq] using ⟨hs, hl⟩
  | agentOutput m => exact ⟨hs, hl⟩
  | agentStderr d => exact ⟨hs, hl⟩
  | streamError e => simp [sysStep, hl, hs]
  | postConfig parsed =>
      cases parsed with
      | some j => simpa [sysStep] using ⟨hs, hl⟩
      | none => exact ⟨hs, hl⟩
  | getConfig => exact ⟨hs, hl⟩

theorem loopDead_run (tr : List SysEvent) :
    ∀ st : ServerState, st.activeStream = true → st.loopRunning = false →
      (sysRun st tr).1.activeStream = true ∧ (sysRun st tr).1.loopRunning = false := by
  induction tr with
  | nil => intro st hs hl; exact ⟨hs, hl⟩
  | cons e tr ih =>
      intro st hs hl
      have h := loopDead_step st e hs hl
      exact ih (sysStep st e).1 h.1 h.2

/-- Claim C5: an error thrown while iterating the agent stream is
handled by the catch clause: it sends exactly one `error` envelope
carrying the error's message (or "Unknown error" for a non-Error
throw) when a connection is active, sends nothing when none is, ends
the iteration loop, and — since `activeStream` is never reset — no
subsequent sequence of events ever restarts the loop. -/
theorem stream_error_caught_and_loop_ends (st : ServerState) (e : Option String)
    (hl : st.loopRunning = true) :
    (∀ c, st.activeConnection = some c →
       sysStep st (.streamError e)
         = ({ st with loopRunning := false },
            [.send c (.error (e.getD "Unknown error"))])) ∧
    (st.activeConnection = none →
       sysStep st (.streamError e) = ({ st with loopRunning := false }, [])) ∧
    (st.activeStream = true → ∀ tr : List SysEvent,
       (sysRun { st with loopRunning := false } tr).1.loopRunning = false) := by
  refine ⟨?_, ?_, ?_⟩
  · intro c hc
    simp [sysStep, hl, hc]
  · intro hc
    simp [sysStep, hl, hc]
  · intro hs tr
    exact (loopDead_run tr { st with loopRunning := false } hs rfl).2

/-- Witness for C5 at a concrete running state with an active
connection and an Error carrying the message "boom". -/
theorem stream_error_caught_and_loop_ends_witness :
    sysStep
      { sysInit with activeConnection := some 0, activeStream := true,
                     loopRunning := true, streamStarts := 1 }
      (.streamError (some "boom"))
      = ({ sysInit with activeConnection := some 0, activeStream := true,
                        loopRunning := false, streamStarts := 1 },
         [.send 0 (.error "boom")]) :=
  (stream_error_caught_and_loop_ends
    { sysInit with activeConnection := some 0, activeStream := true,
                   loopRunning := true, streamStarts := 1 }
    (some "boom") rfl).1 0 rfl

/-- Claim C6: a POST /config whose body fails to parse answers 400 with
body `{"error": "Invalid JSON"}`, leaves the whole server state — in
particular the stored configuration — unchanged, and a subsequent
GET /config answers 200 with the prior stored value. -/
theorem post_invalid_json_leaves_config (st : ServerState) :
    sysStep st (.postConfig none)
      = (st, [.httpRespond 400 (.obj [("error", .str "Invalid JSON")])]) ∧
    sysRun st [.postConfig none, .getConfig]
      = (st, [.httpRespond 400 (.obj [("error", .str "Invalid JSON")]),
              .httpRespond 200 (.obj [("config", st.queryConfig)])]) := by
  constructor <;> simp [sysRun, sysStep]

/-- Claim C7: a POST /config with a valid JSON body replaces the stored
configuration wholesale (no merge with the prior value), answers 200
with `{success: true, config}`, and a subsequent GET /config answers
200 with `{config: <that stored value>}` — for any prior state, so the
last write wins. -/
theorem post_valid_json_replaces_config (st : ServerState) (j : Json) :
    sysRun st [.postConfig (some j), .getConfig]
      = ({ st with queryConfig := j },
         [.httpRespond 200 (.obj [("success", .bool true), ("config", j)]),
          .httpRespond 200 (.obj [("config", j)])]) := by
  simp [sysRun, sysStep]

/-- Claim C10: POST /config performs no validation beyond JSON parsing:
every parsed value — object or not — is accepted with 200, replaces
the stored configuration wholesale, and is returned verbatim by a
subsequent GET /config; spelled out for `null`, a number and a
string. -/
theorem post_accepts_any_json (st : ServerState) (j : Json) :
    sysStep st (.postConfig (some j))
      = ({ st with queryConfig := j },
         [.httpRespond 200 (.obj [("success", .bool true), ("config", j)])]) ∧
    sysRun st [.postConfig (some .null), .getConfig]
      = ({ st with queryConfig := .null },
         [.httpRespond 200 (.obj [("success", .bool true), ("config", .null)]),
          .httpRespond 200 (.obj [("config", .null)])]) ∧
    sysRun st [.postConfig (some (.num 5)), .getConfig]
      = ({ st with queryConfig := .num 5 },
         [.httpRespond 200 (.obj [("success", .bool true), ("config", .num 5)]),
          .httpRespond 200 (.obj [("config", .num 5)])]) ∧
    sysRun st [.postConfig (some (.str "hello")), .getConfig]
      = ({ st with queryConfig := .str "hello" },
         [.httpRespond 200 (.obj [("success", .bool true),
                                  ("config", .str "hello")]),
          .httpRespond 200 (.obj [("config", .str "hello")])]) := by
  refine ⟨?_, ?_, ?_, ?_⟩ <;> simp [sysRun, sysStep]

/-- Lookup in an appended field list: the right (later, shadowing) part
is consulted first. -/
theorem getField_append {α : Type} (xs ys : List (String × α)) (k : String) :
    getField (xs ++ ys) k
      = (match getField ys k with
         | some w => some w
         | none => getField xs k) := by
  induction xs with
  | nil =>
      cases h : getField ys k <;> simp [getField, h]
  | cons kv xs ih =>
      show (match getField (xs ++ ys) k with
            | some w => some w
            | none => if kv.1 = k then some kv.2 else none) = _
      rw [ih]
      cases h : getField ys k <;> cases h2 : getField xs k <;>
        simp [getField, h, h2]

/-- Tagging config fields as JSON option values commutes with lookup. -/
theorem getField_configOptFields (cfg : Json) (k : String) :
    getField (configOptFields cfg) k
      = (getField (spreadFields cfg) k).map OptVal.json := by
  unfold configOptFields
  induction spreadFields cfg with
  | nil => rfl
  | cons kv xs ih =>
      simp only [List.map_cons, getField, ih]
      cases getField xs k with
      | some w => simp
      | none => by_cases h : kv.1 = k <;> simp [h]

/-- The literal defaults of the `options` object carry no `env`
field. -/
theorem getField_defaultOpts_env (wd : String) :
    getField (defaultOpts wd) "env" = none := by
  rfl

/-- On a non-null configuration, building the options succeeds with the
three concatenated field groups. -/
theorem buildOptions_eq_ok (cfg : Json) (wd p : String) (h : cfg ≠ .null) :
    buildOptions cfg wd p
      = .ok (defaultOpts wd ++ configOptFields cfg ++ credEnvPart cfg p) := by
  cases cfg with
  | null => exact absurd rfl h
  | bool b => rfl
  | num n => rfl
  | str s => rfl
  | arr xs => rfl
  | obj fs => rfl

/-- The options construction throws exactly when `optionsConstructionFails`
says so: the two encodings of the line-61 TypeError agree. -/
theorem buildOptions_error_iff (cfg : Json) (wd p : String) :
    buildOptions cfg wd p = .error nullAccessMessage ↔
      optionsConstructionFails cfg = true := by
  cases cfg <;> simp [buildOptions, optionsConstructionFails]

/-- Core of C8/C9, truthy case: with a truthy `anthropicApiKey` in the
stored configuration, the `env` field of the options is exactly the
two-entry object `{PATH, ANTHROPIC_API_KEY}`. -/
theorem env_field_with_truthy_key (cfg : Json) (wd p : String) (v : Json)
    (h1 : anthropicApiKeyOf cfg = some v) (h2 : jsTruthy v = true) :
    (buildOptions cfg wd p).map (fun opts => getField opts "env")
      = .ok (some (.json (.obj [("PATH", .str p), ("ANTHROPIC_API_KEY", v)]))) := by
  have hne : cfg ≠ .null := by
    intro hc
    rw [hc] at h1
    simp [anthropicApiKeyOf, spreadFields, getField] at h1
  have hC : credEnvPart cfg p
      = [("env", .json (.obj [("PATH", .str p), ("ANTHROPIC_API_KEY", v)]))] := by
    simp [credEnvPart, h1, h2]
  rw [buildOptions_eq_ok cfg wd p hne]
  rw [Except.map, getField_append, hC]
  simp [getField]

/-- Core of C8, non-truthy case: without a truthy `anthropicApiKey`,
the credential rule contributes nothing, and the `env` field of the
options is exactly whatever `env` field the stored configuration itself
supplies. -/
theorem env_field_without_truthy_key (cfg : Json) (wd p : String)
    (h1 : credTruthy cfg = false) (h2 : cfg ≠ .null) :
    (buildOptions cfg wd p).map (fun opts => getField opts "env")
      = .ok ((getField (spreadFields cfg) "env").map OptVal.json) := by
  have hC : credEnvPart cfg p = [] := by
    cases hk : anthropicApiKeyOf cfg with
    | none => simp [credEnvPart, hk]
    | some v =>
        have hv : jsTruthy v = false := by
          simpa [credTruthy, hk] using h1
        simp [credEnvPart, hk, hv]
  rw [buildOptions_eq_ok cfg wd p h2]
  rw [Except.map, hC, List.append_nil, getField_append,
    getField_configOptFields, getField_defaultOpts_env]
  cases getField (spreadFields cfg) "env" <;> rfl

/-- Counterexample to C8 as stated: the configuration `cfgEnvOnly`
supplies no `anthropicApiKey`, yet the built options do contain an
`env` override — the config's own `env` field flows through
`...queryConfig` — so "the options contain no environment override at
all" fails. -/
theorem credential_env_injection_counterexample :
    anthropicApiKeyOf cfgEnvOnly = none ∧
    (buildOptions cfgEnvOnly "/home/user/workspace" "/usr/local/bin:/usr/bin").map
        (fun opts => getField opts "env")
      = .ok (some (.json (.obj [("FOO", .str "bar")]))) := by
  constructor <;> rfl

/-- Claim C8 (amended): when the session is created, if the stored
configuration supplies a truthy `anthropicApiKey`, the options' `env`
is exactly `{PATH: inherited PATH, ANTHROPIC_API_KEY: that key}`;
otherwise the credential rule adds no `env` entry, and the options'
`env` is exactly whatever `env` field the configuration itself
supplies (absent if none). -/
theorem credential_env_injection (cfg : Json) (wd p : String) :
    (∀ v, anthropicApiKeyOf cfg = some v → jsTruthy v = true →
       (buildOptions cfg wd p).map (fun opts => getField opts "env")
         = .ok (some (.json (.obj [("PATH", .str p),
                                   ("ANTHROPIC_API_KEY", v)])))) ∧
    (credTruthy cfg = false → cfg ≠ .null →
       (buildOptions cfg wd p).map (fun opts => getField opts "env")
         = .ok ((getField (spreadFields cfg) "env").map OptVal.json)) :=
  ⟨fun v h1 h2 => env_field_with_truthy_key cfg wd p v h1 h2,
   fun h1 h2 => env_field_without_truthy_key cfg wd p h1 h2⟩

/-- Witness for C8 (amended), truthy branch, at a concrete
configuration. -/
theorem credential_env_injection_witness :
    (buildOptions (Json.obj [("anthropicApiKey", Json.str "sk-test-123")])
        "/home/user/workspace" "/usr/bin").map (fun opts => getField opts "env")
      = .ok (some (.json (.obj [("PATH", .str "/usr/bin"),
                                ("ANTHROPIC_API_KEY", Json.str "sk-test-123")]))) :=
  (credential_env_injection (Json.obj [("anthropicApiKey", Json.str "sk-test-123")])
      "/home/user/workspace" "/usr/bin").1 (Json.str "sk-test-123") rfl rfl

/-- Claim C9: when the stored configuration supplies a (truthy)
credential, the environment handed to the agent session is exactly the
two variables `PATH` and `ANTHROPIC_API_KEY` — no other variable of the
server process's environment is included. -/
theorem credential_env_exactly_two_vars (cfg : Json) (wd p : String) (v : Json)
    (h1 : anthropicApiKeyOf cfg = some v) (h2 : jsTruthy v = true) :
    (buildOptions cfg wd p).map (fun opts => getField opts "env")
      = .ok (some (.json (.obj [("PATH", .str p),
                                ("ANTHROPIC_API_KEY", v)]))) :=
  env_field_with_truthy_key cfg wd p v h1 h2

/-- Witness for C9 at a concrete configuration and PATH. -/
theorem credential_env_exactly_two_vars_witness :
    (buildOptions (Json.obj [("cwd", Json.str "/tmp/x"),
                             ("anthropicApiKey", Json.str "sk-ant-key")])
        "/home/user/workspace" "/bin").map (fun opts => getField opts "env")
      = .ok (some (.json (.obj [("PATH", .str "/bin"),
                                ("ANTHROPIC_API_KEY", Json.str "sk-ant-key")]))) :=
  credential_env_exactly_two_vars
    (Json.obj [("cwd", Json.str "/tmp/x"), ("anthropicApiKey", Json.str "sk-ant-key")])
    "/home/user/workspace" "/bin" (Json.str "sk-ant-key") rfl rfl

end AgentServer
